import Mathlib

/-!
Verification of the AP_HACK repository (a Flask video-analytics app that
counts "gunny bags" per frame with an external YOLO detector/tracker, plus
a dataset-preparation script).

Shallow embedding conventions:
* `app.py` — frames, contrast enhancement, JPEG encoding and the detector
  itself live in external libraries (cv2, ultralytics); the embedding takes
  the list of detections the external `model.track` call returns for a frame
  as input, and models the repository's own state updates and outputs.
* Timestamps (`time.time()`) are modelled as natural numbers; the cadence of
  the count-update stream is modelled over the rationals.
* `prepare_data.py` — the filesystem is modelled by the list of image file
  names the glob returns (in post-shuffle order, since `random.shuffle` is
  the only nondeterminism) and the list of existing label file names.
-/

namespace AppPy

/-- One tracked detection returned by the external detector for one frame:
class id (the code reads `int(r.cls)`), track id, bounding box.  This is the
element type of `results[0].boxes` consumed at app.py line 45. -/
structure Detection where
  cls : Int
  track_id : Int
  box : Int × Int × Int × Int
deriving Repr, DecidableEq

/-- app.py line 21: `gunny_bag_class_id = 0`. -/
def gunny_bag_class_id : Int := 0

/-- app.py line 45:
`current_count = sum(1 for r in results[0].boxes if int(r.cls) == gunny_bag_class_id)`,
generalized over the target class id (the code instantiates the target with
`gunny_bag_class_id`). -/
def countDetections (boxes : List Detection) (target : Int) : Nat :=
  boxes.foldl (fun acc r => if r.cls = target then acc + 1 else acc) 0

/-- app.py lines 48-53: append `(timestamp, current_count)` to
`detection_history`, then `detection_history.pop(0)` when the resulting
length exceeds 100. -/
def recordSample (hist : List (Nat × Nat)) (timestamp count : Nat) :
    List (Nat × Nat) :=
  let h := hist ++ [(timestamp, count)]
  if h.length > 100 then h.tail else h

/-- The process-wide mutable state touched by `process_frame`: the rolling
`detection_history` (app.py line 25) and the external tracker's persistent
state, carried across calls because line 42 passes `persist=True` to
`model.track`.  The tracker state is abstracted as the number of frames the
tracker has consumed since process start; nothing in app.py ever resets it. -/
structure ProcState where
  detection_history : List (Nat × Nat)
  tracker : Nat
deriving Repr, DecidableEq

/-- app.py lines 35-69, `process_frame`.  Contrast enhancement, the annotated
rendering and the text overlay are external library calls on the frame
raster; the embedding takes the detections the external tracking call
returns for the (enhanced) frame together with the frame's timestamp, and
models the statistics update and the returned count. -/
def process_frame (st : ProcState) (boxes : List Detection) (timestamp : Nat) :
    ProcState × Nat :=
  let tracker := st.tracker + 1
  let current_count := countDetections boxes gunny_bag_class_id
  let hist := recordSample st.detection_history timestamp current_count
  ({ detection_history := hist, tracker := tracker }, current_count)

/-- Fold `process_frame` over a sequence of frames, each given by the
detections the external model returns for it and its timestamp. -/
def processFrames (st : ProcState) (inputs : List (List Detection × Nat)) :
    ProcState :=
  inputs.foldl (fun s p => (process_frame s p.1 p.2).1) st

/-- The (timestamp, count) sample `process_frame` appends for one frame. -/
def sampleOf (p : List Detection × Nat) : Nat × Nat :=
  (p.2, countDetections p.1 gunny_bag_class_id)

/-- State at process start: empty history (app.py line 25), fresh tracker. -/
def initialProc : ProcState :=
  { detection_history := [], tracker := 0 }

/-- The frame source a `cv2.VideoCapture` is opened on: device index,
network URL, or file path. -/
inductive VideoSource where
  | camera (idx : Nat)
  | url (address : String)
  | file (path : String)
deriving Repr, DecidableEq

/-- app.py lines 71-81, `get_video_source`: dispatch on the process-wide
`current_video_source` string; anything other than the two keywords is
treated as a video file path joined to the working directory
(`os.path.join(os.getcwd(), current_video_source)`, modelled for relative
selections as string concatenation with a separator). -/
def get_video_source (cwd current_video_source : String) : VideoSource :=
  if current_video_source = "webcam" then VideoSource.camera 0
  else if current_video_source = "rtsp" then
    VideoSource.url "rtsp://your_cctv_feed"
  else VideoSource.file (cwd ++ "/" ++ current_video_source)

/-- The JSON body `jsonify({'success': True, 'source': current_video_source})`
returned by the `/change_source` handler (app.py line 235). -/
structure ChangeSourceResponse where
  success : Bool
  source : String
deriving Repr, DecidableEq

/-- A handle for one open video stream: `generate_frames` (app.py line 84)
calls `get_video_source()` once when the generator starts, and the resulting
capture is the only frame source the stream ever reads from. -/
structure StreamHandle where
  source : VideoSource
deriving Repr, DecidableEq

/-- The process-wide state of app.py: the source-selection string
(line 26, defaults to `'webcam'`), the rolling history, the external
tracker's persistent state, and the handles of the video streams opened so
far (in order of opening). -/
structure AppState where
  current_video_source : String
  detection_history : List (Nat × Nat)
  tracker : Nat
  open_streams : List StreamHandle
deriving Repr, DecidableEq

/-- app.py module level: `current_video_source = 'webcam'`, empty history,
fresh tracker, no stream opened yet. -/
def initialApp : AppState :=
  { current_video_source := "webcam", detection_history := [], tracker := 0,
    open_streams := [] }

/-- app.py lines 230-235, `change_source`: store
`data.get('source', 'webcam')` into the process-wide selection and echo it
back with `success: True`.  The argument is the value of the `"source"` key
of the JSON body, when present.  No validation is performed. -/
def change_source (st : AppState) (body : Option String) :
    AppState × ChangeSourceResponse :=
  let src := body.getD "webcam"
  ({ st with current_video_source := src },
   { success := true, source := src })

/-- The externally visible operations on the process-wide state:
opening a `/video_feed` stream (which latches the current selection into a
capture, app.py lines 83-84), a `/change_source` request, and one iteration
of an open stream's loop body (a successful `cap.read()` followed by
`process_frame`). -/
inductive Event where
  | openStream
  | changeSource (body : Option String)
  | readFrame (boxes : List Detection) (timestamp : Nat)
deriving Repr, DecidableEq

/-- One step of the process-wide state under an operation.  `openStream`
reads the selection once and appends a latched handle; `changeSource` only
rewrites the selection string; `readFrame` updates the history and the
persistent tracker through `process_frame` and touches neither the
selection nor any existing handle. -/
def stepEvent (cwd : String) (st : AppState) : Event → AppState
  | Event.openStream =>
      { st with open_streams := st.open_streams
          ++ [{ source := get_video_source cwd st.current_video_source }] }
  | Event.changeSource body => (change_source st body).1
  | Event.readFrame boxes ts =>
      let p := process_frame
        { detection_history := st.detection_history, tracker := st.tracker }
        boxes ts
      { st with detection_history := p.1.detection_history,
                tracker := p.1.tracker }

/-- Run a sequence of operations from a state. -/
def runEvents (cwd : String) (st : AppState) (evs : List Event) : AppState :=
  evs.foldl (stepEvent cwd) st

/-- Claim C4's reset requirement, stated over every reachable execution:
whenever the selection is changed to a different value and a stream is then
(re)opened, the tracker state is reset to its fresh value, so no track
identity carries over to the new stream. -/
def trackerResetOnReopen : Prop :=
  ∀ (cwd : String) (evs : List Event) (s : String),
    s ≠ (runEvents cwd initialApp evs).current_video_source →
    (runEvents cwd initialApp
        (evs ++ [Event.changeSource (some s), Event.openStream])).tracker = 0

/-- One successful frame read, abstracted to what the repository's own code
consumes from it: the detections the external model returns for the frame
and the frame's timestamp. -/
def FrameRead : Type := List Detection × Nat

/-- app.py lines 86-96, the body of `generate_frames` after the capture is
opened: repeatedly `cap.read()`; a failed read (`not success`) breaks out of
the loop immediately — the failing frame is not skipped over and no retry
is made; a successful read is passed to `process_frame` and one multipart
chunk is yielded for it.  A read outcome of `none` models a failed
`cap.read()`.  The yielded chunk is abstracted to the per-frame count
(the JPEG payload is the external encoding of the annotated frame).
Returns the yielded chunks and the final statistics state. -/
def frames_loop : ProcState → List (Option FrameRead) → List Nat × ProcState
  | st, [] => ([], st)
  | st, none :: _ => ([], st)
  | st, some f :: rest =>
      let p := process_frame st f.1 f.2
      let t := frames_loop p.1 rest
      (p.2 :: t.1, t.2)

/-- The counts produced by processing a list of successful reads in order. -/
def processCounts : ProcState → List FrameRead → List Nat
  | _, [] => []
  | st, f :: rest =>
      (process_frame st f.1 f.2).2
        :: processCounts (process_frame st f.1 f.2).1 rest

/-- The longest all-successful prefix of a list of read outcomes. -/
def leadingSomes : List (Option FrameRead) → List FrameRead
  | [] => []
  | none :: _ => []
  | some f :: rest => f :: leadingSomes rest

/-- app.py lines 83-98, `generate_frames` as a whole.  `openedOK` models
`cap.isOpened()`; `disconnectAfter = some k` models a client that abruptly
disconnects after consuming k chunks (the generator is closed at its yield).
The `try/finally` structure runs `cap.release()` on every way out of the
loop — normal end-of-stream, a failed read, and generator close alike — so
the second component (whether the capture was released) is `true` on every
path. -/
def generate_frames_run (openedOK : Bool) (st : ProcState)
    (reads : List (Option FrameRead)) (disconnectAfter : Option Nat) :
    List Nat × Bool :=
  let yielded := if openedOK then (frames_loop st reads).1 else []
  (match disconnectAfter with
   | none => yielded
   | some k => yielded.take k,
   true)

/-- app.py lines 221-226, one iteration of the `/count_updates` generator
body: if the history is nonempty, emit the count of its most recent sample,
else emit 0, each as one `text/event-stream` message. -/
def countMessage (hist : List (Nat × Nat)) : String :=
  match hist.getLast? with
  | some s => "data: " ++ toString s.2 ++ "\n\n"
  | none => "data: 0" ++ "\n\n"

/-- The infinite `/count_updates` stream: the n-th emitted message is the
iteration body applied to the snapshot of the shared `detection_history`
that the generator observes on its n-th iteration. -/
def count_updates_stream (snaps : Nat → List (Nat × Nat)) (n : Nat) : String :=
  countMessage (snaps n)

/-- app.py line 227: `time.sleep(0.5)` between consecutive emissions. -/
def count_update_period : ℚ := 1 / 2

/-- Time of the n-th emission of the `/count_updates` stream, relative to
the stream's opening: one message every `count_update_period`. -/
def emissionTime (n : Nat) : ℚ := n * count_update_period

/-- app.py line 14: the generic pretrained weights identifier used as
fallback. -/
def PRETRAINED_WEIGHTS : String := "yolov8n.pt"

/-- app.py line 11: `os.path.join(os.getcwd(), 'model', 'best.pt')`. -/
def configuredModelPath (cwd : String) : String :=
  cwd ++ "/model/best.pt"

/-- Outcome of the module-level startup code of app.py (lines 11-21): the
resolved `MODEL_PATH`, the startup log lines printed, whether the
`model = YOLO(MODEL_PATH)` initialization on line 20 is reached (it is
unconditional in the module body, so startup is not aborted by a missing
weights file), and the fixed target class id. -/
structure StartupResult where
  model_path : String
  log : List String
  model_loaded : Bool
  target_class_id : Int
deriving Repr, DecidableEq

/-- app.py lines 11-21.  `weightsFileExists` is the outcome of the
`os.path.exists(MODEL_PATH)` check.  Note the fallback branch reassigns
`MODEL_PATH` before the f-string is formatted, so the printed message names
the fallback identifier, not the configured path. -/
def startup (cwd : String) (weightsFileExists : Bool) : StartupResult :=
  if weightsFileExists then
    { model_path := configuredModelPath cwd,
      log := ["Using custom model: " ++ configuredModelPath cwd],
      model_loaded := true,
      target_class_id := 0 }
  else
    { model_path := PRETRAINED_WEIGHTS,
      log := ["Custom model not found at " ++ PRETRAINED_WEIGHTS
        ++ ", using pretrained model"],
      model_loaded := true,
      target_class_id := 0 }

end AppPy

namespace PrepareData

/-- `os.path.splitext(filename)[0]` for the file names this script sees
(results of globbing `*.jpg`, `*.jpeg`, `*.png`, which excludes names
starting with a dot): everything before the last dot. -/
def dropExt (s : String) : String :=
  let parts := s.splitOn "."
  if parts.length ≤ 1 then s else String.intercalate "." parts.dropLast

/-- The filesystem effects of `prepare_dataset` (prepare_data.py lines
6-63): the directories created and, for each of the four target
directories, the file names copied into it, in copy order. -/
structure PrepResult where
  created_dirs : List String
  train_images : List String
  val_images : List String
  train_labels : List String
  val_labels : List String
deriving Repr, DecidableEq

/-- Whether the label file `<base>.txt` matching an image exists in the
source directory (the `os.path.exists(label_path)` checks on lines 48
and 60); `labelFiles` is the list of `.txt` file names present there. -/
def labelFor (img : String) : String :=
  dropExt img ++ ".txt"

/-- prepare_data.py lines 6-63, `prepare_dataset`.  `image_files` is the
list of image file names the three globs return, in the order left by
`random.shuffle` (the shuffle is the only nondeterminism, so it is taken as
input); `labelFiles` lists the `.txt` files present in the source
directory; `split_ratio` is the train fraction.  `split_idx` is
`int(len(image_files) * split_ratio)` — Python `int()` truncates toward
zero, which for the nonnegative products arising from a nonnegative ratio
is the floor; the slice semantics `[:split_idx]` / `[split_idx:]` are those
of nonnegative indices. -/
def prepare_dataset (cwd : String) (image_files labelFiles : List String)
    (split_ratio : ℚ) : PrepResult :=
  let dataset_dir := cwd ++ "/dataset"
  let split_idx : Nat :=
    (Int.floor ((image_files.length : ℚ) * split_ratio)).toNat
  let train_imgs := image_files.take split_idx
  let val_imgs := image_files.drop split_idx
  { created_dirs :=
      [dataset_dir ++ "/images/train", dataset_dir ++ "/images/val",
       dataset_dir ++ "/labels/train", dataset_dir ++ "/labels/val"],
    train_images := train_imgs,
    val_images := val_imgs,
    train_labels :=
      (train_imgs.filter
        (fun f => labelFiles.contains (labelFor f))).map
        (fun f => labelFor f),
    val_labels :=
      (val_imgs.filter
        (fun f => labelFiles.contains (labelFor f))).map
        (fun f => labelFor f) }

/-- The conclusion of claim C9 at given inputs: with M images and train
fraction r, exactly `floor(M*r)` images are copied to `images/train`, the
remaining `M - floor(M*r)` to `images/val`, every source image to exactly
one of the two (in shuffle order), the four directories are created, and a
matching `.txt` label is copied alongside an image exactly when that label
file exists in the source directory. -/
def prepOK (cwd : String) (image_files labelFiles : List String)
    (r : ℚ) : Prop :=
  (prepare_dataset cwd image_files labelFiles r).train_images.length
      = (Int.floor ((image_files.length : ℚ) * r)).toNat ∧
  (prepare_dataset cwd image_files labelFiles r).val_images.length
      = image_files.length
        - (Int.floor ((image_files.length : ℚ) * r)).toNat ∧
  (prepare_dataset cwd image_files labelFiles r).train_images
      ++ (prepare_dataset cwd image_files labelFiles r).val_images
      = image_files ∧
  (prepare_dataset cwd image_files labelFiles r).created_dirs
      = [cwd ++ "/dataset" ++ "/images/train",
         cwd ++ "/dataset" ++ "/images/val",
         cwd ++ "/dataset" ++ "/labels/train",
         cwd ++ "/dataset" ++ "/labels/val"] ∧
  (∀ f ∈ (prepare_dataset cwd image_files labelFiles r).train_images,
    (labelFor f
        ∈ (prepare_dataset cwd image_files labelFiles r).train_labels
      ↔ labelFiles.contains (labelFor f) = true)) ∧
  (∀ f ∈ (prepare_dataset cwd image_files labelFiles r).val_images,
    (labelFor f
        ∈ (prepare_dataset cwd image_files labelFiles r).val_labels
      ↔ labelFiles.contains (labelFor f) = true))

end PrepareData

namespace AppPy

theorem countDetections_go (target : Int) (boxes : List Detection) :
    ∀ n : Nat,
      boxes.foldl (fun acc r => if r.cls = target then acc + 1 else acc) n
        = n + (boxes.filter (fun r => r.cls = target)).length := by
  induction boxes with
  | nil => intro n; simp
  | cons b bs ih =>
    intro n
    by_cases h : b.cls = target
    · simp [List.foldl_cons, List.filter_cons, h, ih]
      omega
    · simp [List.foldl_cons, List.filter_cons, h, ih]

theorem countDetections_eq_filter (boxes : List Detection) (target : Int) :
    countDetections boxes target
      = (boxes.filter (fun r => r.cls = target)).length := by
  simpa using countDetections_go target boxes 0

theorem foldl_recordSample (samples : List (Nat × Nat)) :
    ∀ hist : List (Nat × Nat), hist.length ≤ 100 →
      samples.foldl (fun h s => recordSample h s.1 s.2) hist
        = (hist ++ samples).drop (hist.length + samples.length - 100) := by
  induction samples with
  | nil =>
    intro hist h
    simp [Nat.sub_eq_zero_of_le h]
  | cons s ss ih =>
    intro hist h
    by_cases hl : hist.length = 100
    · obtain ⟨y, hist', rfl⟩ : ∃ y t, hist = y :: t := by
        cases hist with
        | nil => simp at hl
        | cons y t => exact ⟨y, t, rfl⟩
      have hl' : hist'.length = 99 := by
        simp only [List.length_cons] at hl
        omega
      have hstep : recordSample (y :: hist') s.1 s.2
          = hist' ++ [(s.1, s.2)] := by
        unfold recordSample
        rw [if_pos]
        · simp
        · simp only [List.cons_append, List.length_cons, List.length_append,
            List.length_nil, hl']
          omega
      have hlen' : (hist' ++ [(s.1, s.2)]).length ≤ 100 := by
        simp only [List.length_append, List.length_cons, List.length_nil, hl']
        omega
      rw [List.foldl_cons, hstep, ih _ hlen']
      have hidx : (hist' ++ [(s.1, s.2)]).length + ss.length - 100 + 1
          = (y :: hist').length + (s :: ss).length - 100 := by
        simp only [List.length_append, List.length_cons, List.length_nil, hl']
        omega
      rw [← hidx]
      have hfl : (y :: hist') ++ s :: ss = y :: (hist' ++ s :: ss) := by simp
      rw [hfl, List.drop_succ_cons]
      have hms : (hist' ++ [(s.1, s.2)]) ++ ss = hist' ++ s :: ss := by simp
      rw [hms]
    · have hlt : hist.length < 100 := lt_of_le_of_ne h hl
      have hstep : recordSample hist s.1 s.2 = hist ++ [(s.1, s.2)] := by
        unfold recordSample
        rw [if_neg]
        simp only [List.length_append, List.length_cons, List.length_nil]
        omega
      have hlen' : (hist ++ [(s.1, s.2)]).length ≤ 100 := by
        simp only [List.length_append, List.length_cons, List.length_nil]
        omega
      rw [List.foldl_cons, hstep, ih _ hlen']
      have hms : (hist ++ [(s.1, s.2)]) ++ ss = hist ++ s :: ss := by simp
      have hidx : (hist ++ [(s.1, s.2)]).length + ss.length - 100
          = hist.length + (s :: ss).length - 100 := by
        simp only [List.length_append, List.length_cons, List.length_nil]
        omega
      rw [hms, hidx]

theorem processFrames_history (inputs : List (List Detection × Nat)) :
    ∀ st : ProcState,
      (processFrames st inputs).detection_history
        = (inputs.map sampleOf).foldl (fun h s => recordSample h s.1 s.2)
            st.detection_history := by
  induction inputs with
  | nil => intro st; rfl
  | cons p ps ih =>
    intro st
    rw [processFrames, List.foldl_cons, List.map_cons, List.foldl_cons]
    exact ih ((process_frame st p.1 p.2).1)

/-- C1. After processing N frames from process start, the count history holds
exactly the last `min(N, 100)` (timestamp, count) samples in chronological
insertion order (each new append beyond 100 evicting the oldest, FIFO), and
its length never exceeds 100. -/
theorem C1_history_bounded_fifo (inputs : List (List Detection × Nat)) :
    (processFrames initialProc inputs).detection_history
        = (inputs.map sampleOf).drop (inputs.length - 100) ∧
    (processFrames initialProc inputs).detection_history.length
        = min inputs.length 100 ∧
    (processFrames initialProc inputs).detection_history.length ≤ 100 := by
  have h1 : (processFrames initialProc inputs).detection_history
      = (inputs.map sampleOf).drop (inputs.length - 100) := by
    rw [processFrames_history]
    have hkey := foldl_recordSample (inputs.map sampleOf) [] (by simp)
    simpa [initialProc] using hkey
  refine ⟨h1, ?_, ?_⟩
  · rw [h1]
    simp only [List.length_drop, List.length_map]
    omega
  · rw [h1]
    simp only [List.length_drop, List.length_map]
    omega

/-- C2. The per-frame count computed by the pipeline is the number of
detections whose class id equals the target; in particular it is 0 on an
empty detection list, and `process_frame` returns exactly this count for the
fixed target `gunny_bag_class_id`. -/
theorem C2_count_matches (st : ProcState) (boxes : List Detection)
    (timestamp : Nat) (target : Int) :
    countDetections boxes target
        = (boxes.filter (fun r => r.cls = target)).length ∧
    countDetections [] target = 0 ∧
    (process_frame st boxes timestamp).2
        = countDetections boxes gunny_bag_class_id :=
  ⟨countDetections_eq_filter boxes target, rfl, rfl⟩

theorem runEvents_cons (cwd : String) (st : AppState) (e : Event)
    (es : List Event) :
    runEvents cwd st (e :: es) = runEvents cwd (stepEvent cwd st e) es := rfl

theorem open_streams_only_grow (cwd : String) (evs : List Event) :
    ∀ st : AppState, ∃ opened : List StreamHandle,
      (runEvents cwd st evs).open_streams = st.open_streams ++ opened := by
  induction evs with
  | nil => intro st; exact ⟨[], by simp [runEvents]⟩
  | cons e es ih =>
    intro st
    obtain ⟨o2, h2⟩ := ih (stepEvent cwd st e)
    rw [runEvents_cons]
    cases e with
    | openStream =>
        refine ⟨{ source := get_video_source cwd st.current_video_source }
          :: o2, ?_⟩
        rw [h2]
        simp [stepEvent]
    | changeSource body =>
        refine ⟨o2, ?_⟩
        rw [h2]
        simp [stepEvent, change_source]
    | readFrame boxes ts =>
        refine ⟨o2, ?_⟩
        rw [h2]
        simp [stepEvent]

/-- C3. The frame-source selection is read exactly once, when a stream is
opened: opening a stream appends a handle latched to
`get_video_source` of the selection at that moment, and no later operation
— in particular no later `/change_source` request — ever modifies a handle
already latched (the handles list only grows at its tail across any
sequence of operations). -/
theorem C3_selection_latched_at_open (cwd : String) (st : AppState)
    (evs : List Event) :
    (∃ opened, (runEvents cwd st evs).open_streams
        = st.open_streams ++ opened) ∧
    (stepEvent cwd st Event.openStream).open_streams
        = st.open_streams
          ++ [{ source := get_video_source cwd st.current_video_source }] ∧
    (∀ body, (stepEvent cwd st (Event.changeSource body)).open_streams
        = st.open_streams) ∧
    (∀ boxes ts,
      (stepEvent cwd st (Event.readFrame boxes ts)).open_streams
        = st.open_streams) :=
  ⟨open_streams_only_grow cwd evs st, rfl, fun _ => rfl, fun _ _ => rfl⟩

/-- C4, counterexample. The claim that tracking state is reset when a
stream is reopened with a different source selection is false on the code:
after one stream on the webcam has processed one frame, changing the
selection to `"sample.mp4"` and opening a new stream leaves the persistent
tracker state at 1, not at its fresh value 0 — app.py passes
`persist=True` to `model.track` and never resets the tracker. -/
theorem C4_counterexample : ¬ trackerResetOnReopen := by
  intro h
  have h2 := h "/app" [Event.openStream, Event.readFrame [] 5] "sample.mp4"
    (by decide)
  exact absurd h2 (by decide)

/-- C4, amended. Tracking state persists across per-frame detector calls
(each processed frame threads the persistent tracker state forward), and no
operation of app.py — neither a `/change_source` request nor (re)opening a
stream — resets it, so tracker state carries over from a stream on one
source to a later stream on another source (shown concretely in the last
conjunct). -/
theorem C4_amended_tracker_persists (cwd : String) (st : AppState)
    (body : Option String) (boxes : List Detection) (ts : Nat) :
    (stepEvent cwd st (Event.readFrame boxes ts)).tracker = st.tracker + 1 ∧
    (stepEvent cwd st Event.openStream).tracker = st.tracker ∧
    (stepEvent cwd st (Event.changeSource body)).tracker = st.tracker ∧
    (runEvents "/app" initialApp
        [Event.openStream, Event.readFrame [] 5,
         Event.changeSource (some "sample.mp4"), Event.openStream]).tracker
      = 1 :=
  ⟨rfl, rfl, rfl, by decide⟩

/-- C5. A `/change_source` request with body `{"source": "sample.mp4"}`
returns `{"success": true, "source": "sample.mp4"}`, and a stream opened
afterwards is latched to the file source at the path resolved against the
working directory — a file source, not the webcam device. -/
theorem C5_change_to_sample_file (cwd : String) (st : AppState) :
    (change_source st (some "sample.mp4")).2
        = { success := true, source := "sample.mp4" } ∧
    get_video_source cwd
        (change_source st (some "sample.mp4")).1.current_video_source
      = VideoSource.file (cwd ++ "/" ++ "sample.mp4") ∧
    (stepEvent cwd (change_source st (some "sample.mp4")).1
        Event.openStream).open_streams
      = st.open_streams
        ++ [{ source := VideoSource.file (cwd ++ "/" ++ "sample.mp4") }] ∧
    VideoSource.file (cwd ++ "/" ++ "sample.mp4") ≠ VideoSource.camera 0 := by
  refine ⟨rfl, ?_, ?_, by simp⟩
  · simp [change_source, get_video_source]
  · simp [change_source, get_video_source, stepEvent]

theorem frames_loop_eq_processCounts (reads : List (Option FrameRead)) :
    ∀ st : ProcState,
      (frames_loop st reads).1 = processCounts st (leadingSomes reads) := by
  induction reads with
  | nil => intro st; rfl
  | cons r rest ih =>
    intro st
    cases r with
    | none => rfl
    | some f => simp [frames_loop, leadingSomes, processCounts, ih]

theorem frames_loop_stops_at_failure (post : List (Option FrameRead)) :
    ∀ (st : ProcState) (pre : List (Option FrameRead)),
      (frames_loop st (pre ++ none :: post)).1
        = (frames_loop st (pre ++ [none])).1 := by
  intro st pre
  induction pre generalizing st with
  | nil => rfl
  | cons r rest ih =>
    cases r with
    | none => rfl
    | some f => simp [frames_loop, ih]

/-- C6. The video-stream generator processes exactly the reads before the
first failed one — the first failure ends the whole stream, with no frame
skipped and no retry (the output is unchanged by anything after the first
failure) — and on every termination (end of reads, failed read, failed
open, or abrupt client disconnect after any number of chunks) the capture
handle is released. -/
theorem C6_stream_stops_and_releases (openedOK : Bool) (st : ProcState)
    (reads : List (Option FrameRead)) (disconnectAfter : Option Nat)
    (pre post : List (Option FrameRead)) :
    (generate_frames_run openedOK st reads disconnectAfter).2 = true ∧
    (frames_loop st reads).1 = processCounts st (leadingSomes reads) ∧
    (frames_loop st (pre ++ none :: post)).1
        = (frames_loop st (pre ++ [none])).1 :=
  ⟨rfl, frames_loop_eq_processCounts reads st,
   frames_loop_stops_at_failure post st pre⟩

/-- C7. The `/count_updates` stream emits, on each iteration, one
event-stream message holding the count of the most recent history sample —
`data: 0` followed by two newlines when the history is empty, hence as the
first message of a stream opened on an empty history — the n-th message
reflecting the history snapshot at iteration n, messages spaced one
`count_update_period` (0.5 time units) apart, and the stream is defined for
every iteration index (it is infinite). -/
theorem C7_count_updates_messages (snaps : Nat → List (Nat × Nat))
    (n : Nat) (hist : List (Nat × Nat)) (ts c : Nat) :
    countMessage [] = "data: 0" ++ "\n\n" ∧
    countMessage (hist ++ [(ts, c)]) = "data: " ++ toString c ++ "\n\n" ∧
    count_updates_stream snaps n = countMessage (snaps n) ∧
    emissionTime (n + 1) = emissionTime n + count_update_period ∧
    emissionTime 0 = 0 := by
  refine ⟨rfl, ?_, rfl, ?_, ?_⟩
  · simp [countMessage]
  · simp [emissionTime]
    ring
  · simp [emissionTime]

/-- C8. At startup, when no weights file exists at the configured path the
model path falls back to the generic pretrained identifier and the fallback
is logged, and the model is still loaded; when the file exists the
configured path is used; the target class identifier is the constant 0 in
either case. -/
theorem C8_model_path_fallback (cwd : String) :
    (startup cwd false).model_path = PRETRAINED_WEIGHTS ∧
    (startup cwd false).log
        = ["Custom model not found at " ++ PRETRAINED_WEIGHTS
            ++ ", using pretrained model"] ∧
    (startup cwd false).model_loaded = true ∧
    (startup cwd true).model_path = configuredModelPath cwd ∧
    (startup cwd true).model_loaded = true ∧
    (∀ e : Bool, (startup cwd e).target_class_id = 0) ∧
    gunny_bag_class_id = 0 := by
  refine ⟨rfl, rfl, rfl, rfl, rfl, ?_, rfl⟩
  intro e
  cases e <;> rfl

/-- C10. A `/change_source` request whose JSON body lacks the `"source"`
key stores `"webcam"` and returns `{"success": true, "source": "webcam"}`;
and every request with a JSON body succeeds and echoes the stored
selection, with no validation of the supplied value. -/
theorem C10_change_source_defaults_webcam (st : AppState) (s : String)
    (body : Option String) :
    (change_source st none).1.current_video_source = "webcam" ∧
    (change_source st none).2 = { success := true, source := "webcam" } ∧
    (change_source st (some s)).2 = { success := true, source := s } ∧
    (change_source st body).2.success = true ∧
    (change_source st body).2.source
        = (change_source st body).1.current_video_source := by
  refine ⟨rfl, rfl, rfl, ?_, ?_⟩ <;> cases body <;> rfl

end AppPy

namespace PrepareData

theorem mem_label_map_iff (l labelFiles : List String) (f : String)
    (hf : f ∈ l) :
    (labelFor f ∈ (l.filter (fun g => labelFiles.contains (labelFor g))).map
        (fun g => labelFor g))
      ↔ labelFiles.contains (labelFor f) = true := by
  constructor
  · intro hmem
    rw [List.mem_map] at hmem
    obtain ⟨g, hg, hEq⟩ := hmem
    rw [List.mem_filter] at hg
    rw [← hEq]
    exact hg.2
  · intro hc
    exact List.mem_map.2 ⟨f, List.mem_filter.2 ⟨hf, hc⟩, rfl⟩

/-- C9. For a source directory whose globbed images are `image_files`
(M of them, in shuffle order) and a split ratio r with 0 ≤ r ≤ 1, the
dataset-splitting utility copies exactly `floor(M*r)` images to
`images/train` and the remaining `M - floor(M*r)` to `images/val`, each
source image into exactly one of the two; copies the matching `.txt` label
to `labels/train` resp. `labels/val` exactly when that label file exists;
and creates the four directories of the fixed layout. -/
theorem C9_prepare_dataset_split (cwd : String)
    (image_files labelFiles : List String) (r : ℚ)
    (_h0 : 0 ≤ r) (h1 : r ≤ 1) :
    prepOK cwd image_files labelFiles r := by
  have hkM : (Int.floor ((image_files.length : ℚ) * r)).toNat
      ≤ image_files.length := by
    rw [Int.toNat_le]
    calc Int.floor ((image_files.length : ℚ) * r)
        ≤ Int.floor ((image_files.length : ℚ)) := by
          apply Int.floor_mono
          calc (image_files.length : ℚ) * r
              ≤ (image_files.length : ℚ) * 1 :=
                mul_le_mul_of_nonneg_left h1 (by positivity)
            _ = (image_files.length : ℚ) := mul_one _
      _ = (image_files.length : ℤ) := Int.floor_natCast _
  unfold prepOK
  refine ⟨?_, ?_, ?_, rfl, ?_, ?_⟩
  · show (image_files.take
        (Int.floor ((image_files.length : ℚ) * r)).toNat).length = _
    rw [List.length_take]
    omega
  · show (image_files.drop
        (Int.floor ((image_files.length : ℚ) * r)).toNat).length = _
    rw [List.length_drop]
  · exact List.take_append_drop _ _
  · intro f hf
    exact mem_label_map_iff _ labelFiles f hf
  · intro f hf
    exact mem_label_map_iff _ labelFiles f hf

theorem C9_witness :
    (0 ≤ (1:ℚ)/2) ∧ ((1:ℚ)/2 ≤ 1) ∧
    prepOK "/ws" ["a.jpg", "b.png", "c.jpeg"] ["a.txt"] (1/2) :=
  ⟨by norm_num, by norm_num,
   C9_prepare_dataset_split "/ws" ["a.jpg", "b.png", "c.jpeg"] ["a.txt"]
     (1/2) (by norm_num) (by norm_num)⟩

end PrepareData
